import Mathlib

/-!
Verification development for the Dynamic Pricing & Forecasting backend.

The Python source under `backend/app` is shallowly embedded here:

* `backend/app/etl/etl.py` — the `SalesRow` normalizer and the `run_etl`
  pipeline (claim/transform/load/finalize over a staging table);
* `backend/app/services/elasticity.py` — `estimate_elasticity`;
* `backend/app/services/pricing.py` — `calculate_demand_curve`,
  `optimize_price_objective` and `recommend_prices`;
* `backend/app/services/forecasting.py` — the persistence tail of
  `run_forecast`.

Conventions of the embedding:

* UUIDs are abstracted as natural numbers, calendar dates as integers
  (one unit = one day), SQL `Numeric` values as rationals.  Payload
  values that are present are assumed to be type-correct/parseable; the
  unparseable-UUID and unparseable-date failure paths are outside the
  embedded payload type.
* Database tables are lists kept in insertion (commit) order; a query
  ordered by `created_at desc limit 1` is the last matching element.
* The floating-point library calls that the services delegate to are
  abstracted as function parameters: the `numpy`/`pandas` statistics of
  the elasticity fit (`ElasticityStats`), the float `**` operator of the
  demand curve (`pw`), and the LightGBM model outputs of the forecaster
  (`future_predictions`).  All control flow, validation, ordering and
  store mutation around those calls is embedded faithfully.
* A service call returns its result (`Except` for the raised error) in
  the first component and the durable store in the second.  An error
  means the surrounding transaction rolls back, so the durable store is
  returned unchanged; the error value records which rows had been
  flushed to the session before the exception was raised.
-/

/- Batteries seals the rational-number kernel operations against unfolding;
unseal them so that concrete runs of the embedded code reduce by `decide`
and `rfl`. -/
unseal Rat.mul Rat.add Rat.sub Rat.inv Rat.ofScientific

namespace DynPricing

/-! ## Raw payloads and the record normalizer (`etl.py`, `SalesRow`) -/

/-- One raw staged JSON payload.  Each field is `some v` exactly when the
JSON object contains the corresponding key (so key presence and value are
both modelled); heterogeneous JSON values are represented by the type the
normalizer coerces them to. -/
structure RawPayload where
  product_id : Option Nat
  productID : Option Nat
  date : Option Int
  units_sold : Option Int
  quantity : Option Int
  price : Option ℚ
  unit_price : Option ℚ
  revenue : Option ℚ
  deriving DecidableEq, Repr

/-- Classified normalization failure: pydantic `ValidationError` versus any
other exception caught by the generic handler in `run_etl`. -/
inductive NormError where
  | validation (msg : String)
  | other (msg : String)
  deriving DecidableEq, Repr

/-- The canonical sales fact, i.e. a validated `SalesRow` after
`calculate_revenue`, which is also the row shape of the `sales_daily`
table (`models/sales.py`, unique on `(product_id, date)`). -/
structure SalesRow where
  product_id : Nat
  date : Int
  units_sold : Int
  price : ℚ
  revenue : ℚ
  deriving DecidableEq, Repr

/-- Key-presence resolution of `product_id` / `productID`
(`etl.py` line 115: `data["product_id"] if "product_id" in data else
data.get("productID")`). -/
def resolveProductId (p : RawPayload) : Option Nat :=
  if p.product_id.isSome then p.product_id else p.productID

/-- Key-presence resolution of `units_sold` / `quantity`
(`etl.py` line 124, alias default 0). -/
def resolveUnits (p : RawPayload) : Int :=
  match p.units_sold with
  | some u => u
  | none => p.quantity.getD 0

/-- Key-presence resolution of `price` / `unit_price`
(`etl.py` lines 126-129, alias default 0). -/
def resolvePrice (p : RawPayload) : ℚ :=
  match p.price with
  | some v => v
  | none => p.unit_price.getD 0

/-- Revenue extraction (`etl.py` line 132): the key must be present AND its
value truthy (`"revenue" in data and data["revenue"]`); a numeric value is
truthy exactly when it is nonzero. -/
def resolveRevenue (p : RawPayload) : Option ℚ :=
  match p.revenue with
  | some r => if r = 0 then none else some r
  | none => none

/-- Date resolution (`etl.py` lines 118-121): present (and truthy) date is
parsed, otherwise the current UTC date is used. -/
def resolveDate (today : Int) (p : RawPayload) : Int :=
  (p.date).getD today

/-- The transform step of `run_etl` for one payload: build the normalized
dict, validate it as a `SalesRow` (pydantic validators `non_negative_units`,
`non_negative_price`, and the `UUID` field check on a missing product id),
then apply `calculate_revenue` (fill `revenue` with `units_sold * price`
when it is `None`). -/
def normalize (today : Int) (p : RawPayload) : Except NormError SalesRow :=
  match resolveProductId p with
  | none => .error (.validation "product_id: input should be a valid UUID")
  | some pid =>
    let u := resolveUnits p
    let pr := resolvePrice p
    if u < 0 then .error (.validation "units_sold cannot be negative")
    else if pr < 0 then .error (.validation "price cannot be negative")
    else
      .ok { product_id := pid
            date := resolveDate today p
            units_sold := u
            price := pr
            revenue := (resolveRevenue p).getD ((u : ℚ) * pr) }

/-! ## Staging table and the ETL pipeline (`etl.py`, `run_etl`) -/

/-- Processing status of a staged raw record. -/
inductive EtlStatus where
  | pending
  | processed
  | failed
  deriving DecidableEq, Repr

/-- One row of the `raw_sales` staging table. -/
structure StagingRecord where
  raw_id : Nat
  payload : RawPayload
  status : EtlStatus
  error_message : Option String
  deriving DecidableEq, Repr

/-- Mutable state the ETL pipeline touches: the staging table, the
canonical fact table, the product table (ids only) and the number of
organizations (for the auto-created default organization). -/
structure EtlState where
  staging : List StagingRecord
  facts : List SalesRow
  products : List Nat
  orgs : Nat
  deriving DecidableEq, Repr

/-- Key match against the `(product_id, date)` unique key of
`sales_daily`. -/
def keyEq (f : SalesRow) (pid : Nat) (d : Int) : Bool :=
  f.product_id == pid && f.date == d

/-- The `INSERT ... ON CONFLICT (product_id, date) DO UPDATE` statement of
`run_etl` (lines 144-160): overwrite the conflicting row's fields, or
append a fresh row. -/
def upsertSales (facts : List SalesRow) (row : SalesRow) : List SalesRow :=
  if facts.any (fun f => keyEq f row.product_id row.date) then
    facts.map (fun f => if keyEq f row.product_id row.date then row else f)
  else
    facts ++ [row]

/-- `ensure_product_exists`: look the product up and auto-create a minimal
product (plus a default organization when none exists) when missing. -/
def ensure_product_exists (st : EtlState) (pid : Nat) : EtlState :=
  if st.products.contains pid then st
  else { st with products := st.products ++ [pid], orgs := max st.orgs 1 }

/-- The status write-back `UPDATE raw_sales SET status, error_message WHERE
raw_id = ...`. -/
def setStatus (staging : List StagingRecord) (rid : Nat) (s : EtlStatus)
    (err : Option String) : List StagingRecord :=
  staging.map (fun r =>
    if r.raw_id == rid then { r with status := s, error_message := err } else r)

/-- Error text recorded on the staging row (`str(e)` in both `except`
branches of `run_etl`). -/
def errText : NormError → String
  | .validation m => m
  | .other m => m

/-- The body of the per-record loop of `run_etl` (lines 106-183): normalize,
ensure the product exists, upsert the fact and mark `processed`; on failure
leave the fact table alone and mark `failed` with the error text. -/
def processRecord (today : Int) (st : EtlState) (raw : StagingRecord) : EtlState :=
  match normalize today raw.payload with
  | .ok row =>
    let st1 := ensure_product_exists st row.product_id
    { st1 with
      facts := upsertSales st1.facts row
      staging := setStatus st1.staging raw.raw_id .processed none }
  | .error e =>
    { st with staging := setStatus st.staging raw.raw_id .failed (some (errText e)) }

/-- One claimed batch processed in claim order. -/
def runBatch (today : Int) (st : EtlState) (batch : List StagingRecord) : EtlState :=
  batch.foldl (processRecord today) st

/-- The claim step: up to `batch_size` pending staging records. -/
def pendingBatch (st : EtlState) (batch_size : Nat) : List StagingRecord :=
  (st.staging.filter (fun r => r.status == .pending)).take batch_size

/-- The batch loop of `run_etl`, with explicit fuel (each nonempty batch
strictly decreases the number of pending records, so
`st.staging.length` fuel suffices). -/
def run_etl_loop (today : Int) (batch_size : Nat) : Nat → EtlState → EtlState
  | 0, st => st
  | fuel + 1, st =>
    let batch := pendingBatch st batch_size
    if batch.isEmpty then st
    else run_etl_loop today batch_size fuel (runBatch today st batch)

/-- `run_etl(session, batch_size)`: loop claiming and processing batches
until a claim returns no rows. -/
def run_etl (today : Int) (st : EtlState) (batch_size : Nat := 500) : EtlState :=
  run_etl_loop today batch_size st.staging.length st

/-! ## Analytics store (`models/ml.py`, `models/sales.py`) -/

/-- One `model_runs` row (the JSON parameter snapshot is not inspected by
any claim and is omitted). -/
structure ModelRunRow where
  id : Nat
  model_name : String
  model_version : String
  deriving DecidableEq, Repr

/-- One `elasticity_estimates` row. -/
structure ElasticityEstimateRow where
  product_id : Nat
  model_run_id : Nat
  window_start : Int
  window_end : Int
  elasticity : ℚ
  r2 : ℚ
  deriving DecidableEq, Repr

/-- One `forecasts` row. -/
structure ForecastRow where
  product_id : Nat
  model_run_id : Nat
  target_date : Int
  predicted_units : ℚ
  deriving DecidableEq, Repr

/-- One `costs` row. -/
structure CostRow where
  product_id : Nat
  date : Int
  unit_cost : ℚ
  deriving DecidableEq, Repr

/-- One `price_recommendations` row. -/
structure PriceRecRow where
  product_id : Nat
  model_run_id : Nat
  target_date : Int
  objective : String
  suggested_price : ℚ
  expected_units : ℚ
  expected_revenue : ℚ
  expected_profit : ℚ
  deriving DecidableEq, Repr

/-- The durable store the analytical services read and write.  Each table
is a list in insertion order, so `order_by created_at desc limit 1` is the
last matching element. -/
structure Store where
  products : List Nat
  sales : List SalesRow
  costs : List CostRow
  modelRuns : List ModelRunRow
  elasticities : List ElasticityEstimateRow
  forecasts : List ForecastRow
  priceRecs : List PriceRecRow
  deriving DecidableEq, Repr

/-- Latest sales fact of a product: `order_by(SalesDaily.date.desc())
.limit(1)` — the fact with the maximal date (`(product_id, date)` is
unique, so this is well defined). -/
def latestSale (sales : List SalesRow) (pid : Nat) : Option SalesRow :=
  (sales.filter (fun s => s.product_id == pid)).foldl
    (fun acc s =>
      match acc with
      | none => some s
      | some b => if b.date < s.date then some s else some b)
    none

/-- Latest cost row of a product: `order_by(Cost.date.desc()).limit(1)`. -/
def latestCost (costs : List CostRow) (pid : Nat) : Option CostRow :=
  (costs.filter (fun c => c.product_id == pid)).foldl
    (fun acc c =>
      match acc with
      | none => some c
      | some b => if b.date < c.date then some c else some b)
    none

/-- The forecast query of `recommend_prices` (lines 196-202): the rows of
`forecasts` for the product whose `target_date` is among the target
dates. -/
def forecastRowsFor (fcs : List ForecastRow) (pid : Nat) (dates : List Int) :
    List ForecastRow :=
  fcs.filter (fun f => f.product_id == pid && dates.contains f.target_date)

/-- The forecast-dict build of `recommend_prices` (line 203).  The source
calls `.scalars().all()` on the two-column select, which yields only the
first column — bare `target_date` values — so the dict comprehension's
`f.target_date` raises `AttributeError` as soon as the query returned at
least one row.  Only an empty query result builds a dict, and that dict is
empty. -/
def buildForecastDict (rows : List ForecastRow) : Except String (List (Int × ℚ)) :=
  match rows with
  | [] => .ok []
  | _ :: _ => .error "AttributeError: date object has no attribute target_date"

/-- Latest elasticity estimate of a product:
`order_by(ElasticityEstimate.created_at.desc()).limit(1)`. -/
def latestElasticity (ees : List ElasticityEstimateRow) (pid : Nat) :
    Option ElasticityEstimateRow :=
  (ees.filter (fun e => e.product_id == pid)).getLast?

/-! ## Elasticity service (`services/elasticity.py`) -/

/-- The `numpy`/`pandas` statistics of the log-log OLS fit, abstracted as
data: the price coefficient of variation computed on the fetched rows, the
row count after `replace(inf, nan).dropna()`, the fitted slope and R², and
whether the normal-equations solve raised `LinAlgError` (singular
matrix). -/
structure ElasticityStats where
  price_cv : ℚ
  cleaned_points : Nat
  elasticity : ℚ
  r2 : ℚ
  singular : Bool
  deriving DecidableEq, Repr

/-- The dict returned by `estimate_elasticity`. -/
structure ElasPayload where
  elasticity : ℚ
  r2 : ℚ
  confidence : String
  model_run_id : Nat
  data_points : Nat
  price_cv : ℚ
  window_days : Nat
  deriving DecidableEq, Repr

/-- The windowed fact query of `estimate_elasticity` (lines 48-56):
facts of the product with `start_date <= date <= end_date`. -/
def salesInWindow (sales : List SalesRow) (pid : Nat) (start_d end_d : Int) :
    List SalesRow :=
  sales.filter (fun s => s.product_id == pid && start_d ≤ s.date && s.date ≤ end_d)

/-- `estimate_elasticity(session, product_id, window_days,
min_price_variance, min_r2_threshold)`.  `stats` abstracts the
floating-point statistics computed from the fetched window (see
`ElasticityStats`); everything else — the window query, the minimum-rows
checks, the confidence labeling including the R² overwrite, and the
`ModelRun`/`ElasticityEstimate` persistence — follows the source.  Errors
roll the transaction back, so the durable store is returned unchanged. -/
def estimate_elasticity (stats : List SalesRow → ElasticityStats) (st : Store)
    (pid : Nat) (window_days : Nat) (min_price_variance min_r2_threshold : ℚ)
    (today : Int) (newRunId : Nat) : Except String ElasPayload × Store :=
  let end_date := today
  let start_date := today - (window_days : Int)
  let sales_data := salesInWindow st.sales pid start_date end_date
  if sales_data.length < 10 then
    (.error "Insufficient data", st)
  else
    let s := stats sales_data
    let confidence := if s.price_cv < min_price_variance then "low_price_variance" else "high"
    if s.cleaned_points < 5 then
      (.error "Insufficient valid data points after cleaning", st)
    else if s.singular then
      (.error "Failed to calculate elasticity: insufficient price variation", st)
    else
      let confidence := if s.r2 < min_r2_threshold then "low_r2" else confidence
      let run : ModelRunRow := ⟨newRunId, "log_log_ols", "1.0"⟩
      let est : ElasticityEstimateRow :=
        ⟨pid, newRunId, start_date, end_date, s.elasticity, s.r2⟩
      (.ok ⟨s.elasticity, s.r2, confidence, newRunId, s.cleaned_points, s.price_cv,
            window_days⟩,
       { st with
         modelRuns := st.modelRuns ++ [run]
         elasticities := st.elasticities ++ [est] })

/-! ## Pricing service (`services/pricing.py`) -/

/-- `np.linspace(a, b, num)`: `num` evenly spaced points with both
endpoints included, point `i` being `a + (b - a) * i / (num - 1)`. -/
def linspace (a b : ℚ) (num : Nat) : List ℚ :=
  (List.range num).map (fun i : Nat => a + (b - a) * (i : ℚ) / ((num : ℚ) - 1))

/-- `calculate_demand_curve(baseline_price, baseline_quantity, elasticity,
price_range, num_points)`: the price grid and `D(p) = D0 * (p/P0) ** b`.
`pw` abstracts the float `**` operator (base, exponent). -/
def calculate_demand_curve (pw : ℚ → ℚ → ℚ) (baseline_price baseline_quantity : ℚ)
    (elasticity : ℚ) (price_range : ℚ × ℚ) (num_points : Nat := 100) :
    List ℚ × List ℚ :=
  let prices := linspace price_range.1 price_range.2 num_points
  (prices, prices.map (fun p => baseline_quantity * pw (p / baseline_price) elasticity))

/-- First index of the maximum of a list (`np.argmax`; ties resolve to the
earliest index). -/
def argmaxIdx : List ℚ → Nat
  | [] => 0
  | x :: xs =>
    match xs with
    | [] => 0
    | _ :: _ => if x < xs.getD (argmaxIdx xs) 0 then argmaxIdx xs + 1 else 0

/-- Result tuple of `optimize_price_objective`; `expected_profit` is `none`
for the revenue objective (Python `None`). -/
structure OptResult where
  optimal_price : ℚ
  optimal_quantity : ℚ
  expected_revenue : ℚ
  expected_profit : Option ℚ
  deriving DecidableEq, Repr

/-- `optimize_price_objective(prices, quantities, objective, unit_cost)`:
discrete argmax of `p * D(p)` (revenue) or `(p - c) * D(p)` (profit); any
other objective raises `ValueError`. -/
def optimize_price_objective (prices quantities : List ℚ) (objective : String)
    (unit_cost : Option ℚ) : Except String OptResult :=
  if objective = "revenue" then
    let revenues := List.zipWith (fun p q => p * q) prices quantities
    let i := argmaxIdx revenues
    .ok ⟨prices.getD i 0, quantities.getD i 0, revenues.getD i 0, none⟩
  else if objective = "profit" then
    match unit_cost with
    | none => .error "unit_cost required for profit optimization"
    | some c =>
      let profits := List.zipWith (fun p q => (p - c) * q) prices quantities
      let i := argmaxIdx profits
      .ok ⟨prices.getD i 0, quantities.getD i 0,
           prices.getD i 0 * quantities.getD i 0, some (profits.getD i 0)⟩
  else
    .error "objective must be revenue or profit"

/-- One entry of the `recommendations` list returned by
`recommend_prices`. -/
structure RecEntry where
  target_date : Int
  suggested_price : ℚ
  expected_units : ℚ
  expected_revenue : ℚ
  expected_profit : ℚ
  deriving DecidableEq, Repr

/-- The dict returned by `recommend_prices` (`price_range` flattened to
`pmin`/`pmax`). -/
structure RecPayload where
  model_run_id : Nat
  objective : String
  elasticity : ℚ
  baseline_price : ℚ
  pmin : ℚ
  pmax : ℚ
  recommendations : List RecEntry
  deriving DecidableEq, Repr

/-- Error raised by `recommend_prices`, together with the rows that had
been added to the session and flushed before the exception (they are
rolled back with the transaction, never committed). -/
structure PrError where
  msg : String
  flushedRuns : List ModelRunRow
  deriving DecidableEq, Repr

/-- The loop body of `recommend_prices` (lines 229-263) for one target
date: `forecasts.get(target_date, baseline_quantity)` on the built dict
(always empty on the reachable path, see `buildForecastDict`), the demand
curve, then the objective optimization; a raised `ValueError` aborts the
whole call. -/
def recForDate (pw : ℚ → ℚ → ℚ) (baseline_price baseline_quantity elasticity : ℚ)
    (pmin pmax : ℚ) (objective : String) (unit_cost : Option ℚ)
    (forecasts : List (Int × ℚ)) (d : Int) : Except String RecEntry :=
  let forecasted_quantity := ((forecasts.lookup d).getD baseline_quantity)
  let curve := calculate_demand_curve pw baseline_price forecasted_quantity
    elasticity (pmin, pmax) 100
  match optimize_price_objective curve.1 curve.2 objective unit_cost with
  | .error m => .error m
  | .ok r =>
    .ok ⟨d, r.optimal_price, r.optimal_quantity, r.expected_revenue,
         r.expected_profit.getD 0⟩

/-- The `for target_date in target_dates` loop of `recommend_prices`:
collect one recommendation per date in order, aborting the whole call on
the first raised error. -/
def recLoop (f : Int → Except String RecEntry) : List Int → Except String (List RecEntry)
  | [] => .ok []
  | d :: ds =>
    match f d with
    | .error m => .error m
    | .ok r =>
      match recLoop f ds with
      | .error m => .error m
      | .ok rs => .ok (r :: rs)

/-- `recommend_prices(session, product_id, objective, pmin, pmax,
target_dates, horizon)`.  Mirrors the source order: prerequisite lookups,
bound defaults and validation, optional unit-cost lookup, target-date
default, forecast query and dict build (which raises `AttributeError`
whenever a forecast row matched, before the `ModelRun` add — see
`buildForecastDict`), `ModelRun` add + flush, the per-date loop, commit.
On an error the durable store is returned unchanged (rollback); the
`PrError` records the `ModelRun` rows flushed before the raise. -/
def recommend_prices (pw : ℚ → ℚ → ℚ) (st : Store) (pid : Nat) (objective : String)
    (pmin? pmax? : Option ℚ) (target_dates? : Option (List Int)) (horizon : Nat)
    (today : Int) (newRunId : Nat) : Except PrError RecPayload × Store :=
  if ¬ st.products.contains pid then
    (.error ⟨"Product not found", []⟩, st)
  else
    match latestElasticity st.elasticities pid with
    | none => (.error ⟨"No elasticity estimate found", []⟩, st)
    | some ee =>
      match latestSale st.sales pid with
      | none => (.error ⟨"No sales data found", []⟩, st)
      | some ls =>
        let elasticity := ee.elasticity
        let baseline_price := ls.price
        let baseline_quantity : ℚ := (ls.units_sold : ℚ)
        let pmin := pmin?.getD (baseline_price * (1 / 2))
        let pmax := pmax?.getD (baseline_price * (3 / 2))
        if pmax ≤ pmin then (.error ⟨"pmin must be less than pmax", []⟩, st)
        else if pmin ≤ 0 then (.error ⟨"pmin must be positive", []⟩, st)
        else
          let unit_cost : Option ℚ :=
            if objective = "profit" then
              some (((latestCost st.costs pid).map (fun c => c.unit_cost)).getD 0)
            else none
          let target_dates :=
            target_dates?.getD ((List.range horizon).map (fun i : Nat => today + 1 + (i : Int)))
          match buildForecastDict (forecastRowsFor st.forecasts pid target_dates) with
          | .error m => (.error ⟨m, []⟩, st)
          | .ok forecasts =>
            let run : ModelRunRow := ⟨newRunId, "price_optimization", "1.0"⟩
            match recLoop
                (recForDate pw baseline_price baseline_quantity elasticity
                  pmin pmax objective unit_cost forecasts) target_dates with
            | .error m => (.error ⟨m, [run]⟩, st)
            | .ok recs =>
              (.ok ⟨newRunId, objective, elasticity, baseline_price, pmin, pmax, recs⟩,
               { st with
                 modelRuns := st.modelRuns ++ [run]
                 priceRecs := st.priceRecs ++ recs.map (fun r =>
                   ⟨pid, newRunId, r.target_date, objective, r.suggested_price,
                    r.expected_units, r.expected_revenue, r.expected_profit⟩) })

/-! ## Forecasting service tail (`services/forecasting.py`) -/

/-- One entry of the `forecasts` list of the dict returned by
`run_forecast`. -/
structure FcEntry where
  date : Int
  predicted_units : ℚ
  deriving DecidableEq, Repr

/-- The dict returned by `run_forecast` (feature importances omitted; no
claim inspects them). -/
structure FcPayload where
  model_run_id : Nat
  horizon : Nat
  mape : ℚ
  forecasts : List FcEntry
  deriving DecidableEq, Repr

/-- The persistence and return tail of `run_forecast` (lines 178-224),
reached exactly when the call succeeds.  The pandas feature pipeline and
the LightGBM training/prediction that produce `future_dates`,
`future_predictions` and `mape` are floating-point library computations
abstracted as inputs.  Persisted `Forecast` rows clip each prediction with
`float(max(0, prediction))`; the returned payload zips the raw
`future_predictions` unclipped. -/
def run_forecast_persist (st : Store) (pid : Nat) (runId : Nat) (horizon : Nat)
    (mape : ℚ) (future_dates : List Int) (future_predictions : List ℚ) :
    FcPayload × Store :=
  let run : ModelRunRow := ⟨runId, "lightgbm_forecast", "1.0"⟩
  let rows := List.zipWith
    (fun d p => ForecastRow.mk pid runId d (max 0 p)) future_dates future_predictions
  (⟨runId, horizon, mape,
    List.zipWith (fun d p => FcEntry.mk d p) future_dates future_predictions⟩,
   { st with
     modelRuns := st.modelRuns ++ [run]
     forecasts := st.forecasts ++ rows })

/-! ## Derived accessors used by the theorem statements -/

/-- Number of canonical fact rows carrying a given `(product_id, date)`
key. -/
def countKey (facts : List SalesRow) (pid : Nat) (d : Int) : Nat :=
  (facts.filter (fun f => keyEq f pid d)).length

/-! ## Helper lemmas -/

theorem keyEq_self (r : SalesRow) : keyEq r r.product_id r.date = true := by
  simp [keyEq]

theorem keyEq_eq (f : SalesRow) (pid : Nat) (d : Int) :
    keyEq f pid d = true ↔ f.product_id = pid ∧ f.date = d := by
  simp [keyEq]

theorem filter_map_subst (r : SalesRow) (pid : Nat) (d : Int)
    (hr : keyEq r pid d = true) :
    ∀ facts : List SalesRow,
      ((facts.map (fun f => if keyEq f pid d then r else f)).filter
        (fun f => keyEq f pid d)) =
      (facts.filter (fun f => keyEq f pid d)).map (fun _ => r) := by
  intro facts
  induction facts with
  | nil => rfl
  | cons f fs ih =>
    by_cases hm : keyEq f pid d
    · rw [List.map_cons, if_pos hm, List.filter_cons_of_pos (by exact hr),
        List.filter_cons_of_pos (by exact hm), List.map_cons, ih]
    · rw [List.map_cons, if_neg hm, List.filter_cons_of_neg (by simpa using hm),
        List.filter_cons_of_neg (by simpa using hm), ih]

theorem filter_map_subst_ne (r : SalesRow) (pid' : Nat) (d' : Int)
    (hne : keyEq r pid' d' = false) :
    ∀ facts : List SalesRow,
      ((facts.map (fun f => if keyEq f r.product_id r.date then r else f)).filter
        (fun f => keyEq f pid' d')) =
      facts.filter (fun f => keyEq f pid' d') := by
  intro facts
  induction facts with
  | nil => rfl
  | cons f fs ih =>
    by_cases hm : keyEq f r.product_id r.date
    · have hfother : keyEq f pid' d' = false := by
        rcases (keyEq_eq f r.product_id r.date).mp hm with ⟨h1, h2⟩
        by_contra hc
        rcases (keyEq_eq f pid' d').mp (by simpa using hc) with ⟨h3, h4⟩
        have : keyEq r pid' d' = true :=
          (keyEq_eq r pid' d').mpr ⟨h1 ▸ h3, h2 ▸ h4⟩
        rw [this] at hne
        exact Bool.true_eq_false.mp hne
      rw [List.map_cons, if_pos hm, List.filter_cons_of_neg (by simpa using hne),
        List.filter_cons_of_neg (by simpa using hfother), ih]
    · rw [List.map_cons, if_neg hm]
      by_cases hf2 : keyEq f pid' d'
      · rw [List.filter_cons_of_pos (by exact hf2),
          List.filter_cons_of_pos (by exact hf2), ih]
      · rw [List.filter_cons_of_neg (by simpa using hf2),
          List.filter_cons_of_neg (by simpa using hf2), ih]

theorem filter_upsert_eq (facts : List SalesRow) (r : SalesRow)
    (huniq : countKey facts r.product_id r.date ≤ 1) :
    (upsertSales facts r).filter (fun f => keyEq f r.product_id r.date) = [r] := by
  unfold upsertSales
  by_cases hany : facts.any (fun f => keyEq f r.product_id r.date)
  · rw [if_pos hany, filter_map_subst r r.product_id r.date (keyEq_self r)]
    have hge : 1 ≤ countKey facts r.product_id r.date := by
      obtain ⟨f, hf, hkey⟩ := List.any_eq_true.mp hany
      have : f ∈ facts.filter (fun f => keyEq f r.product_id r.date) :=
        List.mem_filter.mpr ⟨hf, hkey⟩
      have := List.length_pos.mpr (List.ne_nil_of_mem this)
      simpa [countKey] using this
    have hone : countKey facts r.product_id r.date = 1 := le_antisymm huniq hge
    unfold countKey at hone
    match hfl : facts.filter (fun f => keyEq f r.product_id r.date), hone with
    | [x], _ => simp
    | [], h => simp [hfl] at hone
    | x :: y :: t, h => simp [hfl] at hone
  · rw [if_neg hany]
    have hnil : facts.filter (fun f => keyEq f r.product_id r.date) = [] := by
      rw [List.filter_eq_nil_iff]
      intro f hf
      have := List.any_eq_false.mp (Bool.eq_false_iff.mpr hany) f hf
      simpa using this
    rw [List.filter_append, hnil, List.nil_append]
    simp [keyEq_self]

theorem filter_upsert_other (facts : List SalesRow) (r : SalesRow)
    (pid : Nat) (d : Int) (hne : keyEq r pid d = false) :
    (upsertSales facts r).filter (fun f => keyEq f pid d) =
      facts.filter (fun f => keyEq f pid d) := by
  unfold upsertSales
  by_cases hany : facts.any (fun f => keyEq f r.product_id r.date)
  · rw [if_pos hany]
    exact filter_map_subst_ne r pid d hne facts
  · rw [if_neg hany, List.filter_append]
    simp [hne]

theorem countKey_upsert_le (facts : List SalesRow) (r : SalesRow)
    (huniq : ∀ pid d, countKey facts pid d ≤ 1) :
    ∀ pid d, countKey (upsertSales facts r) pid d ≤ 1 := by
  intro pid d
  by_cases hk : r.product_id = pid ∧ r.date = d
  · have : countKey (upsertSales facts r) pid d = 1 := by
      unfold countKey
      rcases hk with ⟨h1, h2⟩
      subst h1; subst h2
      rw [filter_upsert_eq facts r (huniq _ _)]
      rfl
    omega
  · have hne : keyEq r pid d = false := by
      rw [Bool.eq_false_iff]
      intro hc
      exact hk ((keyEq_eq r pid d).mp hc)
    unfold countKey
    rw [filter_upsert_other facts r pid d hne]
    exact huniq pid d

theorem self_mem_upsertSales (facts : List SalesRow) (r : SalesRow) :
    r ∈ upsertSales facts r := by
  unfold upsertSales
  by_cases hany : facts.any (fun f => keyEq f r.product_id r.date)
  · rw [if_pos hany]
    obtain ⟨f, hf, hkey⟩ := List.any_eq_true.mp hany
    exact List.mem_map.mpr ⟨f, hf, by simp [hkey]⟩
  · rw [if_neg hany]
    simp

/-! ## Claim theorems -/

/-- Claim C2: loading two records for the same `(product, date)` key leaves
exactly one canonical fact row for that key, carrying the fields
(`units_sold`, `price`, `revenue`) of the later-committed record — the
upsert overwrites in place and never appends a duplicate; the one-fact-per-
key invariant is preserved. -/
theorem upsert_last_write_wins (facts : List SalesRow) (r1 r2 : SalesRow)
    (hpid : r1.product_id = r2.product_id) (hdate : r1.date = r2.date)
    (huniq : ∀ pid d, countKey facts pid d ≤ 1) :
    (upsertSales (upsertSales facts r1) r2).filter
      (fun f => keyEq f r2.product_id r2.date) = [r2] ∧
    countKey (upsertSales (upsertSales facts r1) r2) r2.product_id r2.date = 1 ∧
    ∀ pid d, countKey (upsertSales (upsertSales facts r1) r2) pid d ≤ 1 := by
  have h1 := countKey_upsert_le facts r1 huniq
  have h2 := filter_upsert_eq (upsertSales facts r1) r2 (h1 _ _)
  refine ⟨h2, ?_, countKey_upsert_le _ r2 h1⟩
  unfold countKey
  rw [h2]
  rfl

theorem upsert_last_write_wins_witness :
    ((⟨1, 0, 2, 5, 10⟩ : SalesRow).product_id = (⟨1, 0, 3, 6, 18⟩ : SalesRow).product_id ∧
     (∀ pid d, countKey [] pid d ≤ 1)) ∧
    (upsertSales (upsertSales [] ⟨1, 0, 2, 5, 10⟩) (⟨1, 0, 3, 6, 18⟩ : SalesRow)).filter
      (fun f => keyEq f 1 0) = [⟨1, 0, 3, 6, 18⟩] :=
  ⟨⟨rfl, fun pid d => by simp [countKey]⟩,
   (upsert_last_write_wins [] ⟨1, 0, 2, 5, 10⟩ ⟨1, 0, 3, 6, 18⟩ rfl rfl
     (fun pid d => by simp [countKey])).1⟩

/-- Claim C3: a raw record whose payload resolves to negative `units_sold`
or negative `price` fails normalization with a `ValidationError`; the
processing step writes no canonical fact for it and ends its staging row in
status `failed` with a non-null error detail, and the batch continues with
the remaining records. -/
theorem etl_negative_record_fails (today : Int) (raw : StagingRecord)
    (h : resolveUnits raw.payload < 0 ∨ resolvePrice raw.payload < 0) :
    (∃ msg, normalize today raw.payload = .error (.validation msg)) ∧
    (∀ st : EtlState,
      (processRecord today st raw).facts = st.facts ∧
      ∀ rec ∈ (processRecord today st raw).staging, rec.raw_id = raw.raw_id →
        rec.status = .failed ∧ rec.error_message ≠ none) ∧
    (∀ (st : EtlState) (rest : List StagingRecord),
      runBatch today st (raw :: rest) = runBatch today (processRecord today st raw) rest) := by
  have hmsg : ∃ msg, normalize today raw.payload = .error (.validation msg) := by
    cases hpid : resolveProductId raw.payload with
    | none => exact ⟨"product_id: input should be a valid UUID", by simp [normalize, hpid]⟩
    | some pid =>
      by_cases hu : resolveUnits raw.payload < 0
      · exact ⟨"units_sold cannot be negative", by simp [normalize, hpid, hu]⟩
      · have hpr : resolvePrice raw.payload < 0 := by
          cases h with
          | inl h1 => exact absurd h1 hu
          | inr h2 => exact h2
        exact ⟨"price cannot be negative", by simp [normalize, hpid, hu, hpr]⟩
  obtain ⟨msg, hmsg'⟩ := hmsg
  refine ⟨⟨msg, hmsg'⟩, ?_, ?_⟩
  · intro st
    constructor
    · simp only [processRecord, hmsg']
    · intro rec hrec hid
      simp only [processRecord, hmsg', setStatus] at hrec
      obtain ⟨r, _, heq⟩ := List.mem_map.mp hrec
      by_cases hb : r.raw_id == raw.raw_id
      · rw [if_pos hb] at heq
        subst heq
        exact ⟨rfl, by simp⟩
      · rw [if_neg hb] at heq
        subst heq
        exact absurd (by simpa using hid) (by simpa using hb)
  · intro st rest
    simp [runBatch]

theorem etl_negative_record_fails_witness :
    (resolveUnits (⟨some 1, none, some 3, some (-5), none, some 2, none, none⟩ : RawPayload) < 0 ∨
     resolvePrice (⟨some 1, none, some 3, some (-5), none, some 2, none, none⟩ : RawPayload) < 0) ∧
    ((∃ msg, normalize 0
        (⟨some 1, none, some 3, some (-5), none, some 2, none, none⟩ : RawPayload) =
        .error (.validation msg)) ∧
     (∀ st : EtlState,
       (processRecord 0 st ⟨10, ⟨some 1, none, some 3, some (-5), none, some 2, none, none⟩,
          .pending, none⟩).facts = st.facts ∧
       ∀ rec ∈ (processRecord 0 st ⟨10, ⟨some 1, none, some 3, some (-5), none, some 2, none, none⟩,
          .pending, none⟩).staging, rec.raw_id = 10 →
         rec.status = .failed ∧ rec.error_message ≠ none) ∧
     (∀ (st : EtlState) (rest : List StagingRecord),
       runBatch 0 st (⟨10, ⟨some 1, none, some 3, some (-5), none, some 2, none, none⟩,
          .pending, none⟩ :: rest) =
       runBatch 0 (processRecord 0 st ⟨10, ⟨some 1, none, some 3, some (-5), none, some 2, none, none⟩,
          .pending, none⟩) rest)) :=
  ⟨Or.inl (by decide),
   etl_negative_record_fails 0
     ⟨10, ⟨some 1, none, some 3, some (-5), none, some 2, none, none⟩, .pending, none⟩
     (Or.inl (by decide))⟩

/-- Claim C4 counterexample: a payload supplying `units_sold = 2`,
`price = 3` and an explicit `revenue = 0` normalizes successfully but the
produced fact carries `revenue = 6 = units_sold * price`, not the supplied
0 — the truthiness test `"revenue" in data and data["revenue"]` discards a
supplied zero, so the claim's "including a supplied value of 0" fails. -/
theorem revenue_zero_supplied_is_recomputed :
    (⟨some 1, none, some 3, some 2, none, some 3, none, some 0⟩ : RawPayload).revenue
      = some 0 ∧
    normalize 0 (⟨some 1, none, some 3, some 2, none, some 3, none, some 0⟩ : RawPayload)
      = .ok ⟨1, 3, 2, 3, 6⟩ ∧
    (6 : ℚ) ≠ 0 :=
  ⟨rfl, rfl, by norm_num⟩

/-- Claim C4 amended: for a validated record, the fact's revenue equals the
explicitly supplied revenue whenever the payload supplies a nonzero
(truthy) value; when revenue is absent — or supplied as the falsy value
0 — it is recomputed as `units_sold * price`. -/
theorem normalize_revenue_resolution (today : Int) (p : RawPayload) (row : SalesRow)
    (hok : normalize today p = .ok row) :
    (∀ v : ℚ, p.revenue = some v → v ≠ 0 → row.revenue = v) ∧
    ((p.revenue = none ∨ p.revenue = some 0) →
      row.revenue = (row.units_sold : ℚ) * row.price) := by
  cases hpid : resolveProductId p with
  | none => simp [normalize, hpid] at hok
  | some pid =>
    by_cases hu : resolveUnits p < 0
    · simp [normalize, hpid, hu] at hok
    · by_cases hpr : resolvePrice p < 0
      · simp [normalize, hpid, hu, hpr] at hok
      · simp only [normalize, hpid, if_neg hu, if_neg hpr] at hok
        obtain rfl : SalesRow.mk pid (resolveDate today p) (resolveUnits p)
            (resolvePrice p)
            ((resolveRevenue p).getD ((resolveUnits p : ℚ) * resolvePrice p)) = row := by
          exact Except.ok.inj hok
        constructor
        · intro v hv hvne
          simp [resolveRevenue, hv, hvne]
        · intro hcase
          cases hcase with
          | inl h0 => simp [resolveRevenue, h0]
          | inr h0 => simp [resolveRevenue, h0]

theorem normalize_revenue_resolution_witness :
    (normalize 0 (⟨some 1, none, some 3, some 2, none, some 3, none, some 5⟩ : RawPayload)
        = .ok ⟨1, 3, 2, 3, 5⟩ ∧
      (⟨1, 3, 2, 3, 5⟩ : SalesRow).revenue = 5) ∧
    (normalize 0 (⟨some 1, none, some 3, some 2, none, some 3, none, some 0⟩ : RawPayload)
        = .ok ⟨1, 3, 2, 3, 6⟩ ∧
      (⟨1, 3, 2, 3, 6⟩ : SalesRow).revenue =
        ((⟨1, 3, 2, 3, 6⟩ : SalesRow).units_sold : ℚ) * (⟨1, 3, 2, 3, 6⟩ : SalesRow).price) :=
  ⟨⟨rfl, (normalize_revenue_resolution 0
      ⟨some 1, none, some 3, some 2, none, some 3, none, some 5⟩
      ⟨1, 3, 2, 3, 5⟩ rfl).1 5 rfl (by norm_num)⟩,
   ⟨rfl, (normalize_revenue_resolution 0
      ⟨some 1, none, some 3, some 2, none, some 3, none, some 0⟩
      ⟨1, 3, 2, 3, 6⟩ rfl).2 (Or.inr rfl)⟩⟩

/-- Claim C5: the normalizer resolves each aliased field by key presence,
not truthiness — when the primary key (`product_id`, `units_sold`, `price`)
is present its value is used even if falsy (e.g. 0), and the alias
(`productID`, `quantity`, `unit_price`) is consulted only when the primary
key is absent; a successfully normalized row carries exactly the resolved
values. -/
theorem normalizer_alias_key_presence (p : RawPayload) :
    (∀ v, p.product_id = some v → resolveProductId p = some v) ∧
    (p.product_id = none → resolveProductId p = p.productID) ∧
    (∀ u, p.units_sold = some u → resolveUnits p = u) ∧
    (p.units_sold = none → resolveUnits p = p.quantity.getD 0) ∧
    (∀ v, p.price = some v → resolvePrice p = v) ∧
    (p.price = none → resolvePrice p = p.unit_price.getD 0) ∧
    (∀ (today : Int) (row : SalesRow), normalize today p = .ok row →
      some row.product_id = resolveProductId p ∧
      row.units_sold = resolveUnits p ∧ row.price = resolvePrice p) := by
  refine ⟨?_, ?_, ?_, ?_, ?_, ?_, ?_⟩
  · intro v hv; simp [resolveProductId, hv]
  · intro hv; simp [resolveProductId, hv]
  · intro u hu; simp [resolveUnits, hu]
  · intro hu; simp [resolveUnits, hu]
  · intro v hv; simp [resolvePrice, hv]
  · intro hv; simp [resolvePrice, hv]
  · intro today row hok
    cases hpid : resolveProductId p with
    | none => simp [normalize, hpid] at hok
    | some pid =>
      by_cases hu : resolveUnits p < 0
      · simp [normalize, hpid, hu] at hok
      · by_cases hpr : resolvePrice p < 0
        · simp [normalize, hpid, hu, hpr] at hok
        · simp only [normalize, hpid, if_neg hu, if_neg hpr] at hok
          obtain rfl : SalesRow.mk pid (resolveDate today p) (resolveUnits p)
              (resolvePrice p)
              ((resolveRevenue p).getD ((resolveUnits p : ℚ) * resolvePrice p)) = row :=
            Except.ok.inj hok
          exact ⟨by simp [hpid], rfl, rfl⟩

theorem normalizer_alias_key_presence_witness :
    (resolveProductId (⟨some 1, some 2, none, some 0, some 7, some 0, some 9, none⟩ : RawPayload)
        = some 1 ∧
      resolveUnits (⟨some 1, some 2, none, some 0, some 7, some 0, some 9, none⟩ : RawPayload) = 0 ∧
      resolvePrice (⟨some 1, some 2, none, some 0, some 7, some 0, some 9, none⟩ : RawPayload) = 0) ∧
    (resolveProductId (⟨none, some 2, none, none, some 7, none, some 9, none⟩ : RawPayload)
        = (⟨none, some 2, none, none, some 7, none, some 9, none⟩ : RawPayload).productID ∧
      resolveUnits (⟨none, some 2, none, none, some 7, none, some 9, none⟩ : RawPayload) = 7 ∧
      resolvePrice (⟨none, some 2, none, none, some 7, none, some 9, none⟩ : RawPayload) = 9) :=
  ⟨⟨(normalizer_alias_key_presence _).1 1 rfl,
    (normalizer_alias_key_presence _).2.2.1 0 rfl,
    (normalizer_alias_key_presence _).2.2.2.2.1 0 rfl⟩,
   ⟨(normalizer_alias_key_presence _).2.1 rfl,
    by rw [(normalizer_alias_key_presence _).2.2.2.1 rfl]; rfl,
    by rw [(normalizer_alias_key_presence _).2.2.2.2.2.1 rfl]; rfl⟩⟩

/-- Claim C10: a payload with a parseable (present) product id, non-negative
resolved units and price, and an explicitly supplied negative revenue
normalizes successfully — revenue has no sign validation — and the loaded
fact carries the negative revenue unchanged. -/
theorem normalize_negative_revenue_accepted (today : Int) (p : RawPayload)
    (pid : Nat) (rv : ℚ)
    (hpid : resolveProductId p = some pid)
    (hu : 0 ≤ resolveUnits p) (hpr : 0 ≤ resolvePrice p)
    (hrev : p.revenue = some rv) (hneg : rv < 0) :
    ∃ row : SalesRow, normalize today p = .ok row ∧ row.revenue = rv ∧
      row.product_id = pid ∧
      ∀ (st : EtlState) (raw : StagingRecord), raw.payload = p →
        row ∈ (processRecord today st raw).facts := by
  have hrr : resolveRevenue p = some rv := by
    simp [resolveRevenue, hrev, ne_of_lt hneg]
  have hnorm : normalize today p =
      .ok { product_id := pid, date := resolveDate today p,
            units_sold := resolveUnits p, price := resolvePrice p, revenue := rv } := by
    simp [normalize, hpid, if_neg (not_lt.mpr hu), if_neg (not_lt.mpr hpr), hrr]
  refine ⟨_, hnorm, rfl, rfl, ?_⟩
  intro st raw hp
  simp only [processRecord, hp, hnorm]
  exact self_mem_upsertSales _ _

theorem normalize_negative_revenue_accepted_witness :
    (resolveProductId (⟨some 4, none, some 8, some 3, none, some 2, none, some (-5)⟩ : RawPayload)
        = some 4 ∧
      (0 : Int) ≤ resolveUnits (⟨some 4, none, some 8, some 3, none, some 2, none, some (-5)⟩ : RawPayload) ∧
      ((-5 : ℚ)) < 0) ∧
    (∃ row : SalesRow,
      normalize 0 (⟨some 4, none, some 8, some 3, none, some 2, none, some (-5)⟩ : RawPayload)
        = .ok row ∧ row.revenue = -5 ∧ row.product_id = 4 ∧
      ∀ (st : EtlState) (raw : StagingRecord),
        raw.payload = (⟨some 4, none, some 8, some 3, none, some 2, none, some (-5)⟩ : RawPayload) →
        row ∈ (processRecord 0 st raw).facts) :=
  ⟨⟨rfl, by decide, by norm_num⟩,
   normalize_negative_revenue_accepted 0
     ⟨some 4, none, some 8, some 3, none, some 2, none, some (-5)⟩ 4 (-5)
     rfl (by decide) (by decide) rfl (by norm_num)⟩

/-- Claim C6: with fewer than 10 canonical sales facts in the window
`[today - window_days, today]`, `estimate_elasticity` fails with the
insufficient-data error and performs no store write — no `ModelRun` row and
no `ElasticityEstimate` row is created. -/
theorem elasticity_insufficient_data (stats : List SalesRow → ElasticityStats)
    (st : Store) (pid : Nat) (window_days : Nat) (minpv minr2 : ℚ)
    (today : Int) (runId : Nat)
    (h : (salesInWindow st.sales pid (today - (window_days : Int)) today).length < 10) :
    estimate_elasticity stats st pid window_days minpv minr2 today runId
      = (.error "Insufficient data", st) ∧
    (estimate_elasticity stats st pid window_days minpv minr2 today runId).2.modelRuns
      = st.modelRuns ∧
    (estimate_elasticity stats st pid window_days minpv minr2 today runId).2.elasticities
      = st.elasticities := by
  have he : estimate_elasticity stats st pid window_days minpv minr2 today runId
      = (.error "Insufficient data", st) := by
    simp only [estimate_elasticity]
    rw [if_pos h]
  exact ⟨he, by rw [he], by rw [he]⟩

theorem elasticity_insufficient_data_witness :
    ((salesInWindow ([⟨1, 0, 5, 3, 15⟩] : List SalesRow) 1 (-90) 0).length < 10) ∧
    estimate_elasticity (fun _ => ⟨0, 0, 0, 0, false⟩)
      ⟨[1], [⟨1, 0, 5, 3, 15⟩], [], [], [], [], []⟩ 1 90 (1 / 10) (1 / 5) 0 7
      = (.error "Insufficient data", ⟨[1], [⟨1, 0, 5, 3, 15⟩], [], [], [], [], []⟩) :=
  ⟨by decide,
   (elasticity_insufficient_data (fun _ => ⟨0, 0, 0, 0, false⟩)
     ⟨[1], [⟨1, 0, 5, 3, 15⟩], [], [], [], [], []⟩ 1 90 (1 / 10) (1 / 5) 0 7
     (by decide)).1⟩

/-- Claim C7: on every successful elasticity estimation the returned
confidence label is `"high"` when the price coefficient of variation meets
`min_price_variance` and R² meets `min_r2_threshold`; `"low_price_variance"`
when only the variance threshold fails; and `"low_r2"` whenever
R² < `min_r2_threshold` — the later R² check overwrites a previously set
`"low_price_variance"` label. -/
theorem elasticity_confidence_label (stats : List SalesRow → ElasticityStats)
    (st : Store) (pid : Nat) (window_days : Nat) (minpv minr2 : ℚ)
    (today : Int) (runId : Nat) (pl : ElasPayload) (st2 : Store)
    (hok : estimate_elasticity stats st pid window_days minpv minr2 today runId
      = (.ok pl, st2)) :
    (minpv ≤ pl.price_cv ∧ minr2 ≤ pl.r2 → pl.confidence = "high") ∧
    (pl.price_cv < minpv ∧ minr2 ≤ pl.r2 → pl.confidence = "low_price_variance") ∧
    (pl.r2 < minr2 → pl.confidence = "low_r2") := by
  simp only [estimate_elasticity] at hok
  by_cases h10 : (salesInWindow st.sales pid (today - (window_days : Int)) today).length < 10
  · rw [if_pos h10] at hok
    simp at hok
  · rw [if_neg h10] at hok
    by_cases h5 : (stats (salesInWindow st.sales pid (today - (window_days : Int)) today)).cleaned_points < 5
    · rw [if_pos h5] at hok
      simp at hok
    · rw [if_neg h5] at hok
      by_cases hsing : (stats (salesInWindow st.sales pid (today - (window_days : Int)) today)).singular = true
      · rw [if_pos hsing] at hok
        simp at hok
      · rw [if_neg hsing] at hok
        have hpl := (Prod.mk.injEq _ _ _ _ ▸ hok).1
        obtain rfl : ElasPayload.mk
            (stats (salesInWindow st.sales pid (today - (window_days : Int)) today)).elasticity
            (stats (salesInWindow st.sales pid (today - (window_days : Int)) today)).r2
            (if (stats (salesInWindow st.sales pid (today - (window_days : Int)) today)).r2 < minr2
              then "low_r2"
              else if (stats (salesInWindow st.sales pid (today - (window_days : Int)) today)).price_cv < minpv
                then "low_price_variance" else "high")
            runId
            (stats (salesInWindow st.sales pid (today - (window_days : Int)) today)).cleaned_points
            (stats (salesInWindow st.sales pid (today - (window_days : Int)) today)).price_cv
            window_days = pl := Except.ok.inj hpl
        refine ⟨?_, ?_, ?_⟩
        · rintro ⟨h1, h2⟩
          simp only [ElasPayload.confidence] at *
          rw [if_neg (not_lt.mpr h2), if_neg (not_lt.mpr h1)]
        · rintro ⟨h1, h2⟩
          simp only [ElasPayload.confidence] at *
          rw [if_neg (not_lt.mpr h2), if_pos h1]
        · intro h1
          simp only [ElasPayload.confidence] at *
          rw [if_pos h1]

theorem elasticity_confidence_label_witness :
    estimate_elasticity (fun _ => ⟨1, 10, -2, 1, false⟩)
      ⟨[1], [⟨1, 0, 5, 3, 15⟩, ⟨1, 1, 5, 3, 15⟩, ⟨1, 2, 5, 3, 15⟩, ⟨1, 3, 5, 3, 15⟩,
        ⟨1, 4, 5, 3, 15⟩, ⟨1, 5, 5, 3, 15⟩, ⟨1, 6, 5, 3, 15⟩, ⟨1, 7, 5, 3, 15⟩,
        ⟨1, 8, 5, 3, 15⟩, ⟨1, 9, 5, 3, 15⟩], [], [], [], [], []⟩ 1 90 (1 / 10) (1 / 5) 9 7
      = (.ok ⟨-2, 1, "high", 7, 10, 1, 90⟩,
         ⟨[1], [⟨1, 0, 5, 3, 15⟩, ⟨1, 1, 5, 3, 15⟩, ⟨1, 2, 5, 3, 15⟩, ⟨1, 3, 5, 3, 15⟩,
           ⟨1, 4, 5, 3, 15⟩, ⟨1, 5, 5, 3, 15⟩, ⟨1, 6, 5, 3, 15⟩, ⟨1, 7, 5, 3, 15⟩,
           ⟨1, 8, 5, 3, 15⟩, ⟨1, 9, 5, 3, 15⟩], [], [⟨7, "log_log_ols", "1.0"⟩],
           [⟨1, 7, -81, 9, -2, 1⟩], [], []⟩) ∧
    (ElasPayload.mk (-2) 1 "high" 7 10 1 90).confidence = "high" :=
  ⟨by rfl,
   (elasticity_confidence_label (fun _ => ⟨1, 10, -2, 1, false⟩)
     ⟨[1], [⟨1, 0, 5, 3, 15⟩, ⟨1, 1, 5, 3, 15⟩, ⟨1, 2, 5, 3, 15⟩, ⟨1, 3, 5, 3, 15⟩,
       ⟨1, 4, 5, 3, 15⟩, ⟨1, 5, 5, 3, 15⟩, ⟨1, 6, 5, 3, 15⟩, ⟨1, 7, 5, 3, 15⟩,
       ⟨1, 8, 5, 3, 15⟩, ⟨1, 9, 5, 3, 15⟩], [], [], [], [], []⟩ 1 90 (1 / 10) (1 / 5) 9 7
     ⟨-2, 1, "high", 7, 10, 1, 90⟩
     ⟨[1], [⟨1, 0, 5, 3, 15⟩, ⟨1, 1, 5, 3, 15⟩, ⟨1, 2, 5, 3, 15⟩, ⟨1, 3, 5, 3, 15⟩,
       ⟨1, 4, 5, 3, 15⟩, ⟨1, 5, 5, 3, 15⟩, ⟨1, 6, 5, 3, 15⟩, ⟨1, 7, 5, 3, 15⟩,
       ⟨1, 8, 5, 3, 15⟩, ⟨1, 9, 5, 3, 15⟩], [], [⟨7, "log_log_ols", "1.0"⟩],
       [⟨1, 7, -81, 9, -2, 1⟩], [], []⟩
     (by rfl)).1 ⟨by norm_num, by norm_num⟩⟩

/-- Claim C8 counterexample: a `recommend_prices` call with the invalid
objective string `"maximize"` but an explicitly empty `target_dates` list
does not fail at all — the objective is only validated inside the per-date
loop, so the call returns ok and commits a `ModelRun` row. -/
theorem invalid_objective_empty_dates_commits :
    (recommend_prices (fun _ _ => 1)
        ⟨[1], [⟨1, 0, 10, 4, 40⟩], [], [], [⟨1, 0, -90, 0, -2, 1⟩], [], []⟩
        1 "maximize" (some 1) (some 2) (some []) 30 0 7).1
      = .ok ⟨7, "maximize", -2, 4, 1, 2, []⟩ ∧
    (recommend_prices (fun _ _ => 1)
        ⟨[1], [⟨1, 0, 10, 4, 40⟩], [], [], [⟨1, 0, -90, 0, -2, 1⟩], [], []⟩
        1 "maximize" (some 1) (some 2) (some []) 30 0 7).2.modelRuns
      = [⟨7, "price_optimization", "1.0"⟩] :=
  ⟨by rfl, by rfl⟩

/-- Claim C8 amended: calls with explicit bounds failing validation
(`pmin ≥ pmax` or `pmin ≤ 0`) fail before any store mutation (nothing was
flushed, durable store unchanged).  A call with an invalid objective string
never fails on objective validation before mutating; what happens depends
on the target dates and the forecast table: when a forecast row matches a
target date the call fails earlier with `AttributeError` while building the
forecast dict (pricing.py line 203), before the `ModelRun` add, with
nothing flushed; when no forecast row matches and there is at least one
target date, the invalid objective raises inside the per-date loop after
the `ModelRun` was added and flushed but before commit, so the transaction
rolls back and no row is durably created; and with an explicitly empty
target-date list the call succeeds and commits a `ModelRun` row (with no
recommendations). -/
theorem recommend_prices_config_errors
    (pw : ℚ → ℚ → ℚ) (st : Store) (pid : Nat) (objective : String)
    (a b : ℚ) (td? : Option (List Int)) (horizon : Nat) (today : Int) (runId : Nat) :
    ((b ≤ a ∨ a ≤ 0) →
      ∃ err : PrError,
        recommend_prices pw st pid objective (some a) (some b) td? horizon today runId
          = (.error err, st) ∧ err.flushedRuns = []) ∧
    (∀ (d : Int) (ds : List Int), td? = some (d :: ds) →
      objective ≠ "revenue" → objective ≠ "profit" →
      st.products.contains pid = true →
      (latestElasticity st.elasticities pid).isSome = true →
      (latestSale st.sales pid).isSome = true →
      0 < a → a < b →
      forecastRowsFor st.forecasts pid (d :: ds) = [] →
      recommend_prices pw st pid objective (some a) (some b) td? horizon today runId
        = (.error ⟨"objective must be revenue or profit",
            [⟨runId, "price_optimization", "1.0"⟩]⟩, st)) ∧
    (∀ ds : List Int, td? = some ds →
      st.products.contains pid = true →
      (latestElasticity st.elasticities pid).isSome = true →
      (latestSale st.sales pid).isSome = true →
      0 < a → a < b →
      forecastRowsFor st.forecasts pid ds ≠ [] →
      recommend_prices pw st pid objective (some a) (some b) td? horizon today runId
        = (.error ⟨"AttributeError: date object has no attribute target_date", []⟩, st)) ∧
    (td? = some [] →
      st.products.contains pid = true →
      (latestElasticity st.elasticities pid).isSome = true →
      (latestSale st.sales pid).isSome = true →
      0 < a → a < b →
      ∃ pl : RecPayload,
        (recommend_prices pw st pid objective (some a) (some b) td? horizon today runId).1
          = .ok pl ∧ pl.recommendations = [] ∧
        (recommend_prices pw st pid objective (some a) (some b) td? horizon today runId).2
          = { st with modelRuns := st.modelRuns ++ [⟨runId, "price_optimization", "1.0"⟩] }) := by
  refine ⟨?_, ?_, ?_, ?_⟩
  · intro hb
    simp only [recommend_prices]
    by_cases hc : st.products.contains pid
    · rw [if_neg (by simpa using hc)]
      cases hee : latestElasticity st.elasticities pid with
      | none => exact ⟨_, rfl, rfl⟩
      | some ee =>
        cases hls : latestSale st.sales pid with
        | none => exact ⟨_, rfl, rfl⟩
        | some ls =>
          simp only [Option.getD_some]
          cases hb with
          | inl h1 =>
            rw [if_pos h1]
            exact ⟨_, rfl, rfl⟩
          | inr h1 =>
            by_cases h2 : b ≤ a
            · rw [if_pos h2]
              exact ⟨_, rfl, rfl⟩
            · rw [if_neg h2, if_pos h1]
              exact ⟨_, rfl, rfl⟩
    · rw [if_pos (by simpa using hc)]
      exact ⟨_, rfl, rfl⟩
  · intro d ds htd hro hpo hc hee hls ha hab hfr
    obtain ⟨ee, hee⟩ := Option.isSome_iff_exists.mp hee
    obtain ⟨ls, hls⟩ := Option.isSome_iff_exists.mp hls
    simp only [recommend_prices, hee, hls]
    rw [if_neg (by simpa using hc)]
    simp only [Option.getD_some]
    rw [if_neg (not_le.mpr hab), if_neg (not_le.mpr ha), htd]
    have hopt : ∀ (uc : Option ℚ) (q : ℚ),
        optimize_price_objective (linspace a b 100)
          ((linspace a b 100).map (fun p => q * pw (p / ls.price) ee.elasticity))
          objective uc = .error "objective must be revenue or profit" := by
      intro uc q
      simp only [optimize_price_objective, if_neg hro, if_neg hpo]
    simp only [Option.getD_some, hfr, buildForecastDict, recLoop, recForDate,
      calculate_demand_curve, hopt]
  · intro ds htd hc hee hls ha hab hne
    obtain ⟨ee, hee⟩ := Option.isSome_iff_exists.mp hee
    obtain ⟨ls, hls⟩ := Option.isSome_iff_exists.mp hls
    simp only [recommend_prices, hee, hls]
    rw [if_neg (by simpa using hc)]
    simp only [Option.getD_some]
    rw [if_neg (not_le.mpr hab), if_neg (not_le.mpr ha), htd]
    cases hrows : forecastRowsFor st.forecasts pid ds with
    | nil => exact absurd hrows hne
    | cons f rest => simp only [Option.getD_some, hrows, buildForecastDict]
  · intro htd hc hee hls ha hab
    obtain ⟨ee, hee⟩ := Option.isSome_iff_exists.mp hee
    obtain ⟨ls, hls⟩ := Option.isSome_iff_exists.mp hls
    have hfr0 : forecastRowsFor st.forecasts pid [] = [] := by
      simp [forecastRowsFor]
    simp only [recommend_prices, hee, hls]
    rw [if_neg (by simpa using hc)]
    simp only [Option.getD_some]
    rw [if_neg (not_le.mpr hab), if_neg (not_le.mpr ha), htd]
    simp only [Option.getD_some, hfr0, buildForecastDict, recLoop]
    exact ⟨_, rfl, rfl, by simp⟩

theorem recommend_prices_config_errors_witness :
    ((1 : ℚ) ≤ 3 ∧
     (∃ err : PrError,
       recommend_prices (fun _ _ => 1)
         ⟨[1], [⟨1, 0, 10, 4, 40⟩], [], [], [⟨1, 0, -90, 0, -2, 1⟩], [], []⟩
         1 "revenue" (some 3) (some 1) (some [5]) 30 0 7
         = (.error err, ⟨[1], [⟨1, 0, 10, 4, 40⟩], [], [], [⟨1, 0, -90, 0, -2, 1⟩], [], []⟩) ∧
       err.flushedRuns = [])) ∧
    recommend_prices (fun _ _ => 1)
      ⟨[1], [⟨1, 0, 10, 4, 40⟩], [], [], [⟨1, 0, -90, 0, -2, 1⟩], [], []⟩
      1 "maximize" (some 1) (some 2) (some [5]) 30 0 7
      = (.error ⟨"objective must be revenue or profit", [⟨7, "price_optimization", "1.0"⟩]⟩,
         ⟨[1], [⟨1, 0, 10, 4, 40⟩], [], [], [⟨1, 0, -90, 0, -2, 1⟩], [], []⟩) ∧
    recommend_prices (fun _ _ => 1)
      ⟨[1], [⟨1, 0, 10, 4, 40⟩], [], [], [⟨1, 0, -90, 0, -2, 1⟩], [⟨1, 3, 5, 8⟩], []⟩
      1 "maximize" (some 1) (some 2) (some [5]) 30 0 7
      = (.error ⟨"AttributeError: date object has no attribute target_date", []⟩,
         ⟨[1], [⟨1, 0, 10, 4, 40⟩], [], [], [⟨1, 0, -90, 0, -2, 1⟩], [⟨1, 3, 5, 8⟩], []⟩) :=
  ⟨⟨by norm_num,
    (recommend_prices_config_errors (fun _ _ => 1)
      ⟨[1], [⟨1, 0, 10, 4, 40⟩], [], [], [⟨1, 0, -90, 0, -2, 1⟩], [], []⟩
      1 "revenue" 3 1 (some [5]) 30 0 7).1 (Or.inl (by norm_num))⟩,
   (recommend_prices_config_errors (fun _ _ => 1)
      ⟨[1], [⟨1, 0, 10, 4, 40⟩], [], [], [⟨1, 0, -90, 0, -2, 1⟩], [], []⟩
      1 "maximize" 1 2 (some [5]) 30 0 7).2.1 5 [] rfl
      (by decide) (by decide) (by decide) (by decide) (by decide)
      (by norm_num) (by norm_num) (by decide),
   (recommend_prices_config_errors (fun _ _ => 1)
      ⟨[1], [⟨1, 0, 10, 4, 40⟩], [], [], [⟨1, 0, -90, 0, -2, 1⟩], [⟨1, 3, 5, 8⟩], []⟩
      1 "maximize" 1 2 (some [5]) 30 0 7).2.2.1 [5] rfl
      (by decide) (by decide) (by decide)
      (by norm_num) (by norm_num) (by decide)⟩

theorem getD_zipWith_poly {α β γ : Type} (f : α → β → γ) (as : List α) (bs : List β)
    (j : Nat) (da : α) (db : β) (dc : γ) (ha : j < as.length) (hb : j < bs.length) :
    (List.zipWith f as bs).getD j dc = f (as.getD j da) (bs.getD j db) := by
  have hz : j < (List.zipWith f as bs).length := by
    rw [List.length_zipWith]; omega
  rw [List.getD_eq_getElem _ _ hz, List.getD_eq_getElem _ _ ha,
    List.getD_eq_getElem _ _ hb, List.getElem_zipWith]

theorem mem_zipWith_clip (pid runId : Nat) :
    ∀ (ds : List Int) (ps : List ℚ)
      (f : ForecastRow),
      f ∈ List.zipWith (fun d p => ForecastRow.mk pid runId d (max 0 p)) ds ps →
      0 ≤ f.predicted_units := by
  intro ds
  induction ds with
  | nil => intro ps f hf; simp at hf
  | cons d ds ih =>
    intro ps f hf
    cases ps with
    | nil => simp at hf
    | cons p ps =>
      rcases List.mem_cons.mp hf with h0 | h0
      · subst h0
        exact le_max_left 0 p
      · exact ih ps f h0

/-- Claim C9 counterexample: a successful forecast run whose model emits
the raw prediction −1 persists the clipped value 0 but returns −1 in the
payload's `forecasts` list — the persisted row is non-negative, the payload
entry is not. -/
theorem forecast_payload_unclipped :
    (run_forecast_persist ⟨[1], [], [], [], [], [], []⟩ 1 7 1 0 [5] [-1]).2.forecasts
      = [⟨1, 7, 5, 0⟩] ∧
    (run_forecast_persist ⟨[1], [], [], [], [], [], []⟩ 1 7 1 0 [5] [-1]).1.forecasts
      = [⟨5, -1⟩] ∧
    (-1 : ℚ) < 0 :=
  ⟨by rfl, by rfl, by norm_num⟩

/-- Claim C9 amended: every `Forecast` row persisted by a successful
`run_forecast` call has non-negative `predicted_units` (negative raw
predictions are clipped to zero with `max(0, ·)`), while the `forecasts[]`
list of the returned payload carries the raw model predictions unclipped
and may therefore contain negative values. -/
theorem run_forecast_clipping (st : Store) (pid runId horizon : Nat) (mape : ℚ)
    (future_dates : List Int) (future_predictions : List ℚ) :
    (∀ f ∈ (run_forecast_persist st pid runId horizon mape future_dates
        future_predictions).2.forecasts,
      f ∈ st.forecasts ∨ 0 ≤ f.predicted_units) ∧
    (∀ i, i < future_dates.length → i < future_predictions.length →
      ((run_forecast_persist st pid runId horizon mape future_dates
          future_predictions).1.forecasts.getD i ⟨0, 0⟩).date
        = future_dates.getD i 0 ∧
      ((run_forecast_persist st pid runId horizon mape future_dates
          future_predictions).1.forecasts.getD i ⟨0, 0⟩).predicted_units
        = future_predictions.getD i 0) := by
  constructor
  · intro f hf
    simp only [run_forecast_persist] at hf
    rcases List.mem_append.mp hf with h0 | h0
    · exact Or.inl h0
    · exact Or.inr (mem_zipWith_clip pid runId future_dates future_predictions f h0)
  · intro i hd hp
    simp only [run_forecast_persist]
    rw [getD_zipWith_poly (fun d p => FcEntry.mk d p) future_dates future_predictions i
      0 0 ⟨0, 0⟩ hd hp]
    exact ⟨rfl, rfl⟩

theorem run_forecast_clipping_witness :
    (∀ f ∈ (run_forecast_persist ⟨[1], [], [], [], [], [], []⟩ 1 7 2 0 [5, 6]
        [-1, 3]).2.forecasts,
      f ∈ (⟨[1], [], [], [], [], [], []⟩ : Store).forecasts ∨ 0 ≤ f.predicted_units) ∧
    ((0 : Nat) < 2 ∧
     ((run_forecast_persist ⟨[1], [], [], [], [], [], []⟩ 1 7 2 0 [5, 6]
        [-1, 3]).1.forecasts.getD 0 ⟨0, 0⟩).predicted_units = (-1 : ℚ)) :=
  ⟨(run_forecast_clipping ⟨[1], [], [], [], [], [], []⟩ 1 7 2 0 [5, 6] [-1, 3]).1,
   ⟨by decide,
    by
      rw [((run_forecast_clipping ⟨[1], [], [], [], [], [], []⟩ 1 7 2 0 [5, 6]
        [-1, 3]).2 0 (by decide) (by decide)).2]
      rfl⟩⟩

/-- Claim C1 (code bug): the claim — following the spec and the source's
own comment `Use forecasted quantity or baseline if no forecast` — promises
that each target date's demand scale `D0` is the forecasted units for that
date, falling back to the baseline quantity only when no forecast row
exists.  The code cannot do this: pricing.py line 203 calls
`.scalars().all()` on the two-column select of
`(Forecast.target_date, Forecast.predicted_units)`, which yields bare
dates, so the dict comprehension raises `AttributeError` whenever at least
one forecast row matches a target date — before the `ModelRun` add.  The
forecast-derived branch of the claim is therefore unreachable.  Evaluated
here at a concrete failing input: a store holding a forecast row
(8 predicted units for target date 5) and a call targeting date 5 with a
valid objective and bounds — the call fails with `AttributeError` and
writes nothing, instead of recommending a price computed from `D0 = 8`. -/
theorem recommend_prices_forecast_lookup_crashes :
    recommend_prices (fun _ _ => 1)
      ⟨[1], [⟨1, 0, 10, 4, 40⟩], [], [], [⟨1, 0, -90, 0, -2, 1⟩], [⟨1, 3, 5, 8⟩], []⟩
      1 "revenue" (some 1) (some 2) (some [5]) 30 0 7
      = (.error ⟨"AttributeError: date object has no attribute target_date", []⟩,
         ⟨[1], [⟨1, 0, 10, 4, 40⟩], [], [], [⟨1, 0, -90, 0, -2, 1⟩], [⟨1, 3, 5, 8⟩], []⟩) := by
  rfl

end DynPricing
